import Mathlib

/-! Shallow embedding of the Nomadachi traveler plugin (src/nomadachi.py):
band classifier, place identity resolver, novelty ledger, progression
engine, persistence load and one-time legacy migration.

Python floats are modelled as exact rationals; Python `round` (banker
rounding, half to even) is modelled by `pyRound`.  A float division by
zero (ZeroDivisionError, possible in `_quantize_ll` when the configured
grid is 0.0) is the modelled failure of place-key computation, surfacing
as `Except.error`.  The external GPS position source is passed in as an
`Option (lat, lon)` parameter: any read error is treated by the code as
"no position", which the caller models by passing `none`. -/

namespace Nomadachi

/-- A raw channel value from the handshake AP dict: `raw` is its f-string
rendering (used verbatim in the legacy no-GPS place key), `parsed` is the
result of Python `int(channel)`, with `none` when that conversion raises. -/
structure Chan where
  raw : String
  parsed : Option Int
deriving DecidableEq

/-- The AP dictionary fields used by `on_handshake`: `essid` models
`ap.get(&quot;essid&quot;, &quot;unknown&quot;)`, `bssid` models `(ap.get(&quot;bssid&quot;) or &quot;&quot;)`
before lowercasing, `channel` models `ap.get(&quot;channel&quot;, &quot;0&quot;)`. -/
structure AP where
  essid : String
  bssid : String
  channel : Chan
deriving DecidableEq

/-- The in-memory state of the `Traveler` plugin instance: XP scalars, the
title table (the dict items), the five novelty sets, the last place hash,
and the configuration fields that the scoring path reads. -/
structure Traveler where
  travel_xp : Int
  travel_level : Int
  titles : List (Int × String)
  unique_essids : Finset String
  unique_bssids : Finset String
  unique_ouis : Finset String
  unique_bands : Finset String
  place_hashes : Finset String
  last_place_hash : Option String
  xp_essid : Int
  xp_bssid : Int
  xp_oui : Int
  xp_band : Int
  xp_place : Int
  travel_grid : ℚ
  strict_nogps_places : Bool
deriving DecidableEq

/-- DEFAULT_TITLES from the class body. -/
def DEFAULT_TITLES : List (Int × String) :=
  [(0, "Homebody"), (200, "Wanderling"), (600, "City Stroller"),
   (1200, "Road Warrior"), (2400, "Jetsetter"), (4800, "Globetrotter")]

/-- The state built by `Traveler.__init__` (defaults before config). -/
def initTraveler : Traveler :=
  { travel_xp := 0
    travel_level := 0
    titles := DEFAULT_TITLES
    unique_essids := ∅
    unique_bssids := ∅
    unique_ouis := ∅
    unique_bands := ∅
    place_hashes := ∅
    last_place_hash := none
    xp_essid := 2
    xp_bssid := 1
    xp_oui := 1
    xp_band := 2
    xp_place := 10
    travel_grid := 1/100
    strict_nogps_places := true }

/-- Traveler._channel_to_band: the argument is the result of `int(channel)`
(`none` when parsing raised, giving &quot;unk&quot;). -/
def channel_to_band (channel : Option Int) : String :=
  match channel with
  | none => "unk"
  | some ch =>
    if 1 ≤ ch ∧ ch ≤ 14 then "2.4"
    else if (32 ≤ ch ∧ ch ≤ 173) ∨ ch = 36 ∨ ch = 40 ∨ ch = 44 ∨ ch = 48 ∨
            ch = 149 ∨ ch = 153 ∨ ch = 157 ∨ ch = 161 ∨ ch = 165 then "5"
    else if 1 ≤ ch - 191 ∧ ch - 191 ≤ 59 then "6"
    else "unk"

/-- Python `round` on an exact rational: nearest integer, ties to even. -/
def pyRound (q : ℚ) : Int :=
  let f := ⌊q⌋
  let r := q - f
  if r < 1/2 then f
  else if 1/2 < r then f + 1
  else if f % 2 = 0 then f else f + 1

/-- Left-pad a digit string to 4 characters with zeros. -/
def padZeros4 (s : String) : String :=
  String.mk (List.replicate (4 - s.length) '0') ++ s

/-- Python `f&quot;{q:.4f}&quot;` on an exact rational: round the value at the
fourth decimal (ties to even) and print sign, integer part, and exactly
four fractional digits. -/
def fmt4 (q : ℚ) : String :=
  let n := pyRound (q * 10000)
  let sign := if q < 0 then "-" else ""
  let a := n.natAbs
  sign ++ toString (a / 10000) ++ "." ++ padZeros4 (toString (a % 10000))

/-- Traveler._quantize_ll with grid `g`: `round(v / g) * g` on each
coordinate, then `f&quot;{qlat:.4f}:{qlon:.4f}&quot;`.  When `g = 0` the Python
float division raises ZeroDivisionError, modelled as `Except.error`. -/
def quantize_ll (g lat lon : ℚ) : Except Unit String :=
  if g = 0 then Except.error ()
  else
    let qlat : ℚ := (pyRound (lat / g) : ℚ) * g
    let qlon : ℚ := (pyRound (lon / g) : ℚ) * g
    Except.ok (fmt4 qlat ++ ":" ++ fmt4 qlon)

/-- Python `str.lower`, character by character. -/
def pyLower (s : String) : String := String.mk (s.data.map Char.toLower)

/-- Python `str.split(sep)` for a one-character separator, over the
character list: splitting the empty list gives one empty part, as in
Python. -/
def splitOnChar (c : Char) : List Char → List (List Char)
  | [] => [[]]
  | x :: xs =>
    let r := splitOnChar c xs
    if x = c then [] :: r
    else
      match r with
      | [] => [[x]]
      | y :: ys => (x :: y) :: ys

/-- Python `&quot;:&quot;.join(parts)`. -/
def joinColon (parts : List (List Char)) : String :=
  String.mk (List.intercalate [':'] parts)

/-- The OUI derivation from `on_handshake` and `_compute_place_hash`:
`&quot;:&quot;.join(bssid.split(&quot;:&quot;)[:3]) if bssid and &quot;:&quot; in bssid else None`
(the argument is the already-lowercased bssid). -/
def derive_oui (bssid : String) : Option String :=
  if bssid ≠ "" ∧ bssid.data.contains ':' then
    some (joinColon ((splitOnChar ':' bssid.data).take 3))
  else none

/-- Traveler._compute_place_hash.  `gps` is the result of `_try_read_gps`
(`none` when no candidate file yields a numeric pair, including any read
error).  With a position, quantize; otherwise strict band-only key or the
legacy `oui-band-channel` key. -/
def compute_place_hash (t : Traveler) (gps : Option (ℚ × ℚ)) (ap : AP) :
    Except Unit String :=
  match gps with
  | some (lat, lon) => quantize_ll t.travel_grid lat lon
  | none =>
    let band := channel_to_band ap.channel.parsed
    if t.strict_nogps_places then Except.ok ("nogps-" ++ band)
    else
      let bssid := pyLower ap.bssid
      let oui := (derive_oui bssid).getD "no:ou:i"
      Except.ok (oui ++ "-" ++ band ++ "-" ++ ap.channel.raw)

/-- `sorted(self.titles.keys())`. -/
def sortedKeys (titles : List (Int × String)) : List Int :=
  List.insertionSort (fun a b => a ≤ b) (titles.map Prod.fst)

/-- Traveler._recalc_level: count the sorted thresholds that are at most
the current XP, subtract one, floor at zero. -/
def recalc_level (titles : List (Int × String)) (xp : Int) : Int :=
  max 0 (((sortedKeys titles).countP (fun t => decide (xp ≥ t)) : Int) - 1)

/-- Traveler.get_title: scan thresholds descending; the first one at most
the current XP names the title; fall back to the entry at 0 or
&quot;Homebody&quot;. -/
def get_title (titles : List (Int × String)) (xp : Int) : String :=
  match ((sortedKeys titles).reverse).find? (fun t => decide (xp ≥ t)) with
  | some t => (titles.lookup t).getD ""
  | none => (titles.lookup 0).getD "Homebody"

/-- The loop of Traveler._prev_next_thresholds over the sorted keys. -/
def prev_next_go (xp : Int) (prev : Option Int) :
    List Int → Option Int × Option Int
  | [] => (prev, none)
  | t :: rest => if xp < t then (prev, some t) else prev_next_go xp (some t) rest

/-- Traveler._prev_next_thresholds. -/
def prev_next_thresholds (titles : List (Int × String)) (xp : Int) :
    Option Int × Option Int :=
  prev_next_go xp none (sortedKeys titles)

/-- Traveler._add_xp: no-op when the amount is not positive, else add it
to the cumulative XP and recompute the level. -/
def add_xp (xp : Int) (t : Traveler) : Traveler :=
  if xp ≤ 0 then t
  else
    let t1 := { t with travel_xp := t.travel_xp + xp }
    { t1 with travel_level := recalc_level t1.titles t1.travel_xp }

/-- First check of `on_handshake`: `if essid not in self.unique_essids`,
starting from gained 0. -/
def stepEssid (t : Traveler) (essid : String) : Traveler × Int :=
  if essid ∉ t.unique_essids then
    ({ t with unique_essids := insert essid t.unique_essids }, t.xp_essid)
  else (t, 0)

/-- Second check: `if bssid and bssid not in self.unique_bssids`. -/
def stepBssid (s : Traveler × Int) (bssid : String) : Traveler × Int :=
  if bssid ≠ "" ∧ bssid ∉ s.1.unique_bssids then
    ({ s.1 with unique_bssids := insert bssid s.1.unique_bssids },
     s.2 + s.1.xp_bssid)
  else s

/-- Third check: `if oui and oui not in self.unique_ouis` (the oui is
None or a string; None is skipped, as is the falsy empty string). -/
def stepOui (s : Traveler × Int) (oui : Option String) : Traveler × Int :=
  match oui with
  | some o =>
    if o ≠ "" ∧ o ∉ s.1.unique_ouis then
      ({ s.1 with unique_ouis := insert o s.1.unique_ouis },
       s.2 + s.1.xp_oui)
    else s
  | none => s

/-- Fourth check: `if band and band not in self.unique_bands`. -/
def stepBand (s : Traveler × Int) (band : String) : Traveler × Int :=
  if band ≠ "" ∧ band ∉ s.1.unique_bands then
    ({ s.1 with unique_bands := insert band s.1.unique_bands },
     s.2 + s.1.xp_band)
  else s

/-- The four attribute-category checks of `on_handshake` (essid, bssid,
oui, band), in program order, returning the mutated state and the XP
gained so far. -/
def score4 (t : Traveler) (ap : AP) : Traveler × Int :=
  stepBand
    (stepOui
      (stepBssid (stepEssid t ap.essid) (pyLower ap.bssid))
      (derive_oui (pyLower ap.bssid)))
    (channel_to_band ap.channel.parsed)

/-- Saturation of a state for an encounter: each of the four attribute
categories of the encounter is already recorded (when applicable), so
none of the four checks fires. -/
def sat (t : Traveler) (ap : AP) : Prop :=
  ap.essid ∈ t.unique_essids ∧
  (pyLower ap.bssid ≠ "" → pyLower ap.bssid ∈ t.unique_bssids) ∧
  (∀ o, derive_oui (pyLower ap.bssid) = some o → o ≠ "" → o ∈ t.unique_ouis) ∧
  (channel_to_band ap.channel.parsed ≠ "" →
    channel_to_band ap.channel.parsed ∈ t.unique_bands)

/-- The place check of `on_handshake`: `if place not in self.place_hashes`
insert it, record it as the last place, add the place XP and set the
new-place flag. -/
def placeStep (s : Traveler × Int) (place : String) : Traveler × Int × Bool :=
  if place ∉ s.1.place_hashes then
    ({ s.1 with place_hashes := insert place s.1.place_hashes,
                last_place_hash := some place },
     s.2 + s.1.xp_place, true)
  else (s.1, s.2, false)

/-- The tail of `on_handshake`: `if gained > 0` apply `_add_xp` and save. -/
def finishStep (r : Traveler × Int × Bool) :
    Traveler × Option (Int × Bool × Bool) :=
  if r.2.1 > 0 then (add_xp r.2.1 r.1, some (r.2.1, true, r.2.2))
  else (r.1, some (r.2.1, false, r.2.2))

/-- Traveler.on_handshake on a well-formed AP dict.  The result pairs the
final state with `none` when an exception escaped to the outer handler
(the call failed after the four category checks, inside place-key
computation), or `some (xpGained, saved, newPlace)`: the XP awarded, and
whether `self.save()` ran and whether the new-place branch was taken. -/
def on_handshake (t : Traveler) (ap : AP) (gps : Option (ℚ × ℚ)) :
    Traveler × Option (Int × Bool × Bool) :=
  match compute_place_hash (score4 t ap).1 gps ap with
  | Except.error _ => ((score4 t ap).1, none)
  | Except.ok place => finishStep (placeStep (score4 t ap) place)

/-- A persisted (or legacy) JSON document: each field is present or
absent; `unique_channels` from the legacy document is ignored by the code
and therefore not modelled. -/
structure Doc where
  travel_xp : Option Int
  travel_level : Option Int
  unique_essids : Option (Finset String)
  unique_bssids : Option (Finset String)
  unique_ouis : Option (Finset String)
  unique_bands : Option (Finset String)
  place_hashes : Option (Finset String)
  last_place_hash : Option (Option String)
deriving DecidableEq

/-- Traveler.load on an existing, parsed document: every field is
assigned from the document, missing fields defaulting to zero or empty. -/
def load (t : Traveler) (d : Doc) : Traveler :=
  { t with
    travel_xp := d.travel_xp.getD 0
    travel_level := d.travel_level.getD 0
    unique_essids := d.unique_essids.getD ∅
    unique_bssids := d.unique_bssids.getD ∅
    unique_ouis := d.unique_ouis.getD ∅
    unique_bands := d.unique_bands.getD ∅
    place_hashes := d.place_hashes.getD ∅
    last_place_hash := d.last_place_hash.getD none }

/-- One field step of `_try_migrate_from_age_json` for an integer scalar:
copy the legacy value when present and the local value is falsy (zero). -/
def copyInt (loc : Int) (legacy : Option Int) : Int × Bool :=
  match legacy with
  | some v => if loc = 0 then (v, true) else (loc, false)
  | none => (loc, false)

/-- One field step of `_try_migrate_from_age_json` for a set: when the
legacy field is present and the local set is falsy (empty), union the
legacy value in. -/
def copySet (loc : Finset String) (legacy : Option (Finset String)) :
    Finset String × Bool :=
  match legacy with
  | some v => if loc = ∅ then (loc ∪ v, true) else (loc, false)
  | none => (loc, false)

/-- Python falsiness of the `last_place_hash` slot: `None` or `&quot;&quot;`. -/
def strFalsy : Option String → Bool
  | none => true
  | some s => s = ""

/-- One field step of `_try_migrate_from_age_json` for `last_place_hash`. -/
def copyLast (loc : Option String) (legacy : Option (Option String)) :
    Option String × Bool :=
  match legacy with
  | some v => if strFalsy loc then (v, true) else (loc, false)
  | none => (loc, false)

/-- Traveler._try_migrate_from_age_json on a legacy document that exists
and parses: the key_map fields are processed in order (they are pairwise
independent); the Bool is the `mutated` flag, which triggers `save()`. -/
def migrate (t : Traveler) (d : Doc) : Traveler × Bool :=
  let c1 := copyInt t.travel_xp d.travel_xp
  let c2 := copyInt t.travel_level d.travel_level
  let c3 := copySet t.unique_essids d.unique_essids
  let c4 := copySet t.unique_bssids d.unique_bssids
  let c5 := copySet t.unique_ouis d.unique_ouis
  let c6 := copySet t.unique_bands d.unique_bands
  let c7 := copySet t.place_hashes d.place_hashes
  let c8 := copyLast t.last_place_hash d.last_place_hash
  ({ t with
      travel_xp := c1.1
      travel_level := c2.1
      unique_essids := c3.1
      unique_bssids := c4.1
      unique_ouis := c5.1
      unique_bands := c6.1
      place_hashes := c7.1
      last_place_hash := c8.1 },
   c1.2 || c2.2 || c3.2 || c4.2 || c5.2 || c6.2 || c7.2 || c8.2)

/-- Fold a list of XP amounts through `_add_xp`, oldest first. -/
def applyAll (l : List Int) (t : Traveler) : Traveler :=
  l.foldl (fun s a => add_xp a s) t


/-- Document with only travel_xp set, used to exhibit a load that leaves
the level out of sync with the experience. -/
def docXpOnly : Doc := ⟨some 5000, none, none, none, none, none, none, none⟩

/-- Initial state with the place grid misconfigured to 0.0, making
`_quantize_ll` raise ZeroDivisionError whenever a GPS fix is present. -/
def gridZero : Traveler := { initTraveler with travel_grid := 0 }

/-- A concrete encounter: essid &quot;cafe&quot;, empty bssid, channel 0. -/
def apCafe : AP := { essid := "cafe", bssid := "", channel := { raw := "0", parsed := some 0 } }

/-- A concrete encounter on channel 36 with a full bssid. -/
def apA : AP :=
  { essid := "NetA", bssid := "DE:AD:BE:EF:00:11",
    channel := { raw := "36", parsed := some 36 } }

/-- A different concrete encounter, same band (channel 40) as `apA`. -/
def apB : AP :=
  { essid := "NetB", bssid := "11:22:33:44:55:66",
    channel := { raw := "40", parsed := some 40 } }

theorem copyInt_fst (loc : Int) (lg : Option Int) :
    (copyInt loc lg).1 = if lg ≠ none ∧ loc = 0 then lg.getD 0 else loc := by
  cases lg <;> simp [copyInt] <;> split_ifs <;> simp_all

theorem copyInt_snd (loc : Int) (lg : Option Int) :
    (copyInt loc lg).2 = true ↔ lg ≠ none ∧ loc = 0 := by
  cases lg <;> simp [copyInt] <;> split_ifs <;> simp_all

theorem copySet_fst (loc : Finset String) (lg : Option (Finset String)) :
    (copySet loc lg).1 = if lg ≠ none ∧ loc = ∅ then loc ∪ lg.getD ∅ else loc := by
  cases lg <;> simp [copySet] <;> split_ifs <;> simp_all

theorem copySet_snd (loc : Finset String) (lg : Option (Finset String)) :
    (copySet loc lg).2 = true ↔ lg ≠ none ∧ loc = ∅ := by
  cases lg <;> simp [copySet] <;> split_ifs <;> simp_all

theorem copySet_subset (loc : Finset String) (lg : Option (Finset String)) :
    loc ⊆ (copySet loc lg).1 := by
  rw [copySet_fst]
  split_ifs <;> simp [Finset.subset_union_left]

theorem copyLast_fst (loc : Option String) (lg : Option (Option String)) :
    (copyLast loc lg).1 = if lg ≠ none ∧ strFalsy loc then lg.getD none else loc := by
  cases lg <;> simp [copyLast] <;> split_ifs <;> simp_all

theorem copyLast_snd (loc : Option String) (lg : Option (Option String)) :
    (copyLast loc lg).2 = true ↔ lg ≠ none ∧ strFalsy loc = true := by
  cases lg <;> simp [copyLast] <;> split_ifs <;> simp_all

theorem migrate_unfold (t : Traveler) (d : Doc) :
    migrate t d =
      ({ t with
          travel_xp := (copyInt t.travel_xp d.travel_xp).1
          travel_level := (copyInt t.travel_level d.travel_level).1
          unique_essids := (copySet t.unique_essids d.unique_essids).1
          unique_bssids := (copySet t.unique_bssids d.unique_bssids).1
          unique_ouis := (copySet t.unique_ouis d.unique_ouis).1
          unique_bands := (copySet t.unique_bands d.unique_bands).1
          place_hashes := (copySet t.place_hashes d.place_hashes).1
          last_place_hash := (copyLast t.last_place_hash d.last_place_hash).1 },
       ((copyInt t.travel_xp d.travel_xp).2 ||
        (copyInt t.travel_level d.travel_level).2 ||
        (copySet t.unique_essids d.unique_essids).2 ||
        (copySet t.unique_bssids d.unique_bssids).2 ||
        (copySet t.unique_ouis d.unique_ouis).2 ||
        (copySet t.unique_bands d.unique_bands).2 ||
        (copySet t.place_hashes d.place_hashes).2 ||
        (copyLast t.last_place_hash d.last_place_hash).2)) := by
  unfold migrate
  rfl

/-- Claim C4: the band classifier returns &quot;unk&quot; when the channel does not
parse as an integer, &quot;2.4&quot; for 1 to 14, &quot;5&quot; for 32 to 173 or the
enumerated channels, &quot;6&quot; when channel minus 191 lies in 1 to 59, and
&quot;unk&quot; otherwise; in particular 6, 40, 100, 200, 300 and a non-numeric
channel map to 2.4, 5, 5, 6, unk, unk.  It is a pure function of its
argument. -/
theorem claim_C4_band_classifier :
    channel_to_band none = "unk" ∧
    (∀ ch : Int, 1 ≤ ch → ch ≤ 14 → channel_to_band (some ch) = "2.4") ∧
    (∀ ch : Int, (32 ≤ ch ∧ ch ≤ 173) ∨ ch = 36 ∨ ch = 40 ∨ ch = 44 ∨ ch = 48 ∨
        ch = 149 ∨ ch = 153 ∨ ch = 157 ∨ ch = 161 ∨ ch = 165 →
      channel_to_band (some ch) = "5") ∧
    (∀ ch : Int, 1 ≤ ch - 191 → ch - 191 ≤ 59 → channel_to_band (some ch) = "6") ∧
    (∀ ch : Int, ¬(1 ≤ ch ∧ ch ≤ 14) →
      ¬((32 ≤ ch ∧ ch ≤ 173) ∨ ch = 36 ∨ ch = 40 ∨ ch = 44 ∨ ch = 48 ∨
        ch = 149 ∨ ch = 153 ∨ ch = 157 ∨ ch = 161 ∨ ch = 165) →
      ¬(1 ≤ ch - 191 ∧ ch - 191 ≤ 59) → channel_to_band (some ch) = "unk") ∧
    channel_to_band (some 6) = "2.4" ∧ channel_to_band (some 40) = "5" ∧
    channel_to_band (some 100) = "5" ∧ channel_to_band (some 200) = "6" ∧
    channel_to_band (some 300) = "unk" := by
  refine ⟨rfl, ?_, ?_, ?_, ?_, rfl, rfl, rfl, rfl, rfl⟩
  · intro ch h1 h2
    simp only [channel_to_band]
    split_ifs <;> first | rfl | omega
  · intro ch h1
    simp only [channel_to_band]
    split_ifs <;> first | rfl | omega
  · intro ch h1 h2
    simp only [channel_to_band]
    split_ifs <;> first | rfl | omega
  · intro ch h1 h2 h3
    simp only [channel_to_band]
    split_ifs <;> first | rfl | omega

/-- Witness for C4 at the concrete channels 7, 150, 240 and 20. -/
theorem claim_C4_witness :
    channel_to_band (some 7) = "2.4" ∧ channel_to_band (some 150) = "5" ∧
    channel_to_band (some 240) = "6" ∧ channel_to_band (some 20) = "unk" :=
  ⟨claim_C4_band_classifier.2.1 7 (by decide) (by decide),
   claim_C4_band_classifier.2.2.1 150 (by decide),
   claim_C4_band_classifier.2.2.2.1 240 (by decide) (by decide),
   claim_C4_band_classifier.2.2.2.2.1 20 (by decide) (by decide) (by decide)⟩

/-- Claim C5: level recomputation counts the title-table thresholds that
are at most the current experience and floors count minus one at zero
(so experience below every threshold yields level 0); with the default
table, experience 0/199/200/4800/9999 gives levels 0/0/1/5/5 and titles
Homebody, Wanderling, Globetrotter, and at 9999 the next threshold is
absent. -/
theorem claim_C5_level_recompute :
    (∀ (titles : List (Int × String)) (xp : Int),
      recalc_level titles xp =
        max 0 (((titles.map Prod.fst).countP (fun k => decide (k ≤ xp)) : Int) - 1)) ∧
    (∀ (titles : List (Int × String)) (xp : Int),
      (∀ k ∈ titles.map Prod.fst, xp < k) → recalc_level titles xp = 0) ∧
    recalc_level DEFAULT_TITLES 0 = 0 ∧ get_title DEFAULT_TITLES 0 = "Homebody" ∧
    recalc_level DEFAULT_TITLES 199 = 0 ∧
    recalc_level DEFAULT_TITLES 200 = 1 ∧
    get_title DEFAULT_TITLES 200 = "Wanderling" ∧
    recalc_level DEFAULT_TITLES 4800 = 5 ∧
    get_title DEFAULT_TITLES 4800 = "Globetrotter" ∧
    recalc_level DEFAULT_TITLES 9999 = 5 ∧
    (prev_next_thresholds DEFAULT_TITLES 9999).2 = none := by
  refine ⟨?_, ?_, rfl, rfl, rfl, rfl, rfl, rfl, rfl, rfl, rfl⟩
  · intro titles xp
    unfold recalc_level sortedKeys
    have hp := List.perm_insertionSort (fun a b : Int => a ≤ b) (titles.map Prod.fst)
    rw [hp.countP_eq]
  · intro titles xp h
    unfold recalc_level sortedKeys
    have hp := List.perm_insertionSort (fun a b : Int => a ≤ b) (titles.map Prod.fst)
    rw [hp.countP_eq, List.countP_eq_zero.mpr]
    · simp
    · intro k hk
      simp only [decide_eq_true_eq]
      have := h k hk
      omega

/-- Witness for C5: a table whose lowest threshold is 10 still yields
level 0 at experience 5. -/
theorem claim_C5_witness : recalc_level [((10 : Int), "T")] 5 = 0 :=
  claim_C5_level_recompute.2.1 [((10 : Int), "T")] 5 (by decide)

/-- Claim C3 fails on the code: loading a document whose travel_xp is
5000 but which carries no travel_level field leaves the level at 0,
while recomputation from the loaded experience would give 5 — `load`
sets the level directly from the document and never recomputes it. -/
theorem claim_C3_counterexample :
    ¬ ((load initTraveler docXpOnly).travel_level =
        recalc_level (load initTraveler docXpOnly).titles
          (load initTraveler docXpOnly).travel_xp) := by
  intro h
  rw [show (load initTraveler docXpOnly).travel_level = 0 from rfl] at h
  rw [show recalc_level (load initTraveler docXpOnly).titles
      (load initTraveler docXpOnly).travel_xp = 5 from rfl] at h
  exact absurd h (by decide)

/-- Claim C3 amended: after adding a positive amount of experience the
level equals the recomputation from the current experience and title
table, but `load` and legacy migration assign the level directly from
the document (migration only when the local level is zero), with no
recomputation. -/
theorem claim_C3_amended :
    (∀ (t : Traveler) (a : Int), 0 < a →
      (add_xp a t).travel_level =
        recalc_level (add_xp a t).titles (add_xp a t).travel_xp) ∧
    (∀ (t : Traveler) (d : Doc), (load t d).travel_level = d.travel_level.getD 0) ∧
    (∀ (t : Traveler) (d : Doc), (migrate t d).1.travel_level =
      (if d.travel_level ≠ none ∧ t.travel_level = 0 then d.travel_level.getD 0
       else t.travel_level)) := by
  refine ⟨?_, ?_, ?_⟩
  · intro t a ha
    simp [add_xp, show ¬ a ≤ 0 by omega]
  · intro t d
    simp [load]
  · intro t d
    rw [migrate_unfold]
    exact copyInt_fst _ _

/-- Witness for C3 amended, at amount 1 from the initial state. -/
theorem claim_C3_witness :
    (add_xp 1 initTraveler).travel_level =
      recalc_level (add_xp 1 initTraveler).titles (add_xp 1 initTraveler).travel_xp :=
  claim_C3_amended.1 initTraveler 1 (by decide)

set_option maxHeartbeats 1600000 in
/-- Claim C9: legacy migration is strictly additive: every recognized
field is copied only when the local field is falsy (zero or empty or
None), sets are unioned into the empty local set, non-falsy local state
is never overwritten, and the save flag is raised exactly when some
field guard passed. -/
theorem claim_C9_migration :
    ∀ (t : Traveler) (d : Doc),
    (migrate t d).1.travel_xp =
      (if d.travel_xp ≠ none ∧ t.travel_xp = 0 then d.travel_xp.getD 0
       else t.travel_xp) ∧
    (migrate t d).1.travel_level =
      (if d.travel_level ≠ none ∧ t.travel_level = 0 then d.travel_level.getD 0
       else t.travel_level) ∧
    (migrate t d).1.unique_essids =
      (if d.unique_essids ≠ none ∧ t.unique_essids = ∅ then
        t.unique_essids ∪ d.unique_essids.getD ∅ else t.unique_essids) ∧
    (migrate t d).1.unique_bssids =
      (if d.unique_bssids ≠ none ∧ t.unique_bssids = ∅ then
        t.unique_bssids ∪ d.unique_bssids.getD ∅ else t.unique_bssids) ∧
    (migrate t d).1.unique_ouis =
      (if d.unique_ouis ≠ none ∧ t.unique_ouis = ∅ then
        t.unique_ouis ∪ d.unique_ouis.getD ∅ else t.unique_ouis) ∧
    (migrate t d).1.unique_bands =
      (if d.unique_bands ≠ none ∧ t.unique_bands = ∅ then
        t.unique_bands ∪ d.unique_bands.getD ∅ else t.unique_bands) ∧
    (migrate t d).1.place_hashes =
      (if d.place_hashes ≠ none ∧ t.place_hashes = ∅ then
        t.place_hashes ∪ d.place_hashes.getD ∅ else t.place_hashes) ∧
    (migrate t d).1.last_place_hash =
      (if d.last_place_hash ≠ none ∧ strFalsy t.last_place_hash then
        d.last_place_hash.getD none else t.last_place_hash) ∧
    t.unique_essids ⊆ (migrate t d).1.unique_essids ∧
    t.unique_bssids ⊆ (migrate t d).1.unique_bssids ∧
    t.unique_ouis ⊆ (migrate t d).1.unique_ouis ∧
    t.unique_bands ⊆ (migrate t d).1.unique_bands ∧
    t.place_hashes ⊆ (migrate t d).1.place_hashes ∧
    ((migrate t d).2 = true ↔
      ((d.travel_xp ≠ none ∧ t.travel_xp = 0) ∨
       (d.travel_level ≠ none ∧ t.travel_level = 0) ∨
       (d.unique_essids ≠ none ∧ t.unique_essids = ∅) ∨
       (d.unique_bssids ≠ none ∧ t.unique_bssids = ∅) ∨
       (d.unique_ouis ≠ none ∧ t.unique_ouis = ∅) ∨
       (d.unique_bands ≠ none ∧ t.unique_bands = ∅) ∨
       (d.place_hashes ≠ none ∧ t.place_hashes = ∅) ∨
       (d.last_place_hash ≠ none ∧ strFalsy t.last_place_hash = true))) := by
  intro t d
  rw [migrate_unfold]
  refine ⟨copyInt_fst _ _, copyInt_fst _ _, copySet_fst _ _, copySet_fst _ _,
    copySet_fst _ _, copySet_fst _ _, copySet_fst _ _, copyLast_fst _ _,
    copySet_subset _ _, copySet_subset _ _, copySet_subset _ _,
    copySet_subset _ _, copySet_subset _ _, ?_⟩
  simp only [Bool.or_eq_true, copyInt_snd, copySet_snd, copyLast_snd]
  tauto

theorem stepEssid_fst (t : Traveler) (e : String) :
    (stepEssid t e).1 = { t with unique_essids := insert e t.unique_essids } := by
  unfold stepEssid
  split_ifs with h
  · rw [Finset.insert_eq_self.mpr h]
  · rfl

theorem stepBssid_fst (s : Traveler × Int) (b : String) :
    (stepBssid s b).1 =
      { s.1 with unique_bssids :=
          if b = "" then s.1.unique_bssids else insert b s.1.unique_bssids } := by
  unfold stepBssid
  by_cases hb : b = "" <;> by_cases hm : b ∈ s.1.unique_bssids <;>
    simp [hb, hm, Finset.insert_eq_self]

theorem stepOui_fst (s : Traveler × Int) (oui : Option String) :
    (stepOui s oui).1 =
      { s.1 with unique_ouis :=
          match oui with
          | some o => if o = "" then s.1.unique_ouis else insert o s.1.unique_ouis
          | none => s.1.unique_ouis } := by
  unfold stepOui
  cases oui with
  | none => rfl
  | some o =>
    by_cases hb : o = "" <;> by_cases hm : o ∈ s.1.unique_ouis <;>
      simp [hb, hm, Finset.insert_eq_self]

theorem stepBand_fst (s : Traveler × Int) (b : String) :
    (stepBand s b).1 =
      { s.1 with unique_bands :=
          if b = "" then s.1.unique_bands else insert b s.1.unique_bands } := by
  unfold stepBand
  by_cases hb : b = "" <;> by_cases hm : b ∈ s.1.unique_bands <;>
    simp [hb, hm, Finset.insert_eq_self]

theorem score4_fst (t : Traveler) (ap : AP) :
    (score4 t ap).1 =
      { t with
        unique_essids := insert ap.essid t.unique_essids
        unique_bssids :=
          if pyLower ap.bssid = "" then t.unique_bssids
          else insert (pyLower ap.bssid) t.unique_bssids
        unique_ouis :=
          match derive_oui (pyLower ap.bssid) with
          | some o => if o = "" then t.unique_ouis else insert o t.unique_ouis
          | none => t.unique_ouis
        unique_bands :=
          if channel_to_band ap.channel.parsed = "" then t.unique_bands
          else insert (channel_to_band ap.channel.parsed) t.unique_bands } := by
  unfold score4
  rw [stepBand_fst, stepOui_fst, stepBssid_fst, stepEssid_fst]

theorem score4_frame (t : Traveler) (ap : AP) :
    (score4 t ap).1.travel_xp = t.travel_xp ∧
    (score4 t ap).1.travel_level = t.travel_level ∧
    (score4 t ap).1.titles = t.titles ∧
    (score4 t ap).1.place_hashes = t.place_hashes ∧
    (score4 t ap).1.last_place_hash = t.last_place_hash ∧
    (score4 t ap).1.travel_grid = t.travel_grid ∧
    (score4 t ap).1.strict_nogps_places = t.strict_nogps_places ∧
    (score4 t ap).1.xp_essid = t.xp_essid ∧
    (score4 t ap).1.xp_bssid = t.xp_bssid ∧
    (score4 t ap).1.xp_oui = t.xp_oui ∧
    (score4 t ap).1.xp_band = t.xp_band ∧
    (score4 t ap).1.xp_place = t.xp_place := by
  rw [score4_fst]
  exact ⟨rfl, rfl, rfl, rfl, rfl, rfl, rfl, rfl, rfl, rfl, rfl, rfl⟩

theorem score4_sat (t : Traveler) (ap : AP) : sat (score4 t ap).1 ap := by
  rw [sat, score4_fst]
  refine ⟨Finset.mem_insert_self _ _, ?_, ?_, ?_⟩
  · intro hb
    dsimp only
    rw [if_neg hb]
    exact Finset.mem_insert_self _ _
  · intro o ho hne
    dsimp only
    rw [ho]
    dsimp only
    rw [if_neg hne]
    exact Finset.mem_insert_self _ _
  · intro hb
    dsimp only
    rw [if_neg hb]
    exact Finset.mem_insert_self _ _

theorem stepEssid_noop (t : Traveler) (e : String) (h : e ∈ t.unique_essids) :
    stepEssid t e = (t, 0) := by
  unfold stepEssid
  simp [h]

theorem stepBssid_noop (s : Traveler × Int) (b : String)
    (h : b ≠ "" → b ∈ s.1.unique_bssids) : stepBssid s b = s := by
  unfold stepBssid
  split_ifs with hc
  · exact absurd (h hc.1) hc.2
  · rfl

theorem stepOui_noop (s : Traveler × Int) (oui : Option String)
    (h : ∀ o, oui = some o → o ≠ "" → o ∈ s.1.unique_ouis) : stepOui s oui = s := by
  unfold stepOui
  cases oui with
  | none => rfl
  | some o =>
    dsimp only
    split_ifs with hc
    · exact absurd (h o rfl hc.1) hc.2
    · rfl

theorem stepBand_noop (s : Traveler × Int) (b : String)
    (h : b ≠ "" → b ∈ s.1.unique_bands) : stepBand s b = s := by
  unfold stepBand
  split_ifs with hc
  · exact absurd (h hc.1) hc.2
  · rfl

theorem score4_noop (t : Traveler) (ap : AP) (h : sat t ap) : score4 t ap = (t, 0) := by
  obtain ⟨h1, h2, h3, h4⟩ := h
  unfold score4
  rw [stepEssid_noop t ap.essid h1, stepBssid_noop (t, 0) _ h2,
      stepOui_noop (t, 0) _ h3, stepBand_noop (t, 0) _ h4]

theorem sat_congr (t t' : Traveler) (ap : AP)
    (he : t'.unique_essids = t.unique_essids)
    (hb : t'.unique_bssids = t.unique_bssids)
    (ho : t'.unique_ouis = t.unique_ouis)
    (hd : t'.unique_bands = t.unique_bands)
    (h : sat t ap) : sat t' ap := by
  rw [sat, he, hb, ho, hd]
  exact h

theorem compute_congr (t t' : Traveler) (gps : Option (ℚ × ℚ)) (ap : AP)
    (hg : t'.travel_grid = t.travel_grid)
    (hs : t'.strict_nogps_places = t.strict_nogps_places) :
    compute_place_hash t' gps ap = compute_place_hash t gps ap := by
  unfold compute_place_hash
  cases gps with
  | some pr => cases pr with | mk lat lon => rw [hg]
  | none => rw [hs]

theorem compute_ok (t : Traveler) (gps : Option (ℚ × ℚ)) (ap : AP)
    (h : t.travel_grid ≠ 0 ∨ gps = none) :
    ∃ p, compute_place_hash t gps ap = Except.ok p := by
  unfold compute_place_hash
  cases gps with
  | none =>
    dsimp only
    split_ifs <;> exact ⟨_, rfl⟩
  | some pr =>
    cases pr with
    | mk lat lon =>
      have hg : t.travel_grid ≠ 0 := by
        rcases h with h | h
        · exact h
        · cases h
      dsimp only
      unfold quantize_ll
      rw [if_neg hg]
      exact ⟨_, rfl⟩

theorem add_xp_frame (a : Int) (t : Traveler) :
    (add_xp a t).unique_essids = t.unique_essids ∧
    (add_xp a t).unique_bssids = t.unique_bssids ∧
    (add_xp a t).unique_ouis = t.unique_ouis ∧
    (add_xp a t).unique_bands = t.unique_bands ∧
    (add_xp a t).place_hashes = t.place_hashes ∧
    (add_xp a t).last_place_hash = t.last_place_hash ∧
    (add_xp a t).titles = t.titles ∧
    (add_xp a t).travel_grid = t.travel_grid ∧
    (add_xp a t).strict_nogps_places = t.strict_nogps_places := by
  unfold add_xp
  split_ifs <;> exact ⟨rfl, rfl, rfl, rfl, rfl, rfl, rfl, rfl, rfl⟩

theorem placeStep_mem (s : Traveler × Int) (p : String)
    (h : p ∈ s.1.place_hashes) : placeStep s p = (s.1, s.2, false) := by
  unfold placeStep
  simp [h]

theorem placeStep_new (s : Traveler × Int) (p : String)
    (h : p ∉ s.1.place_hashes) :
    placeStep s p =
      ({ s.1 with place_hashes := insert p s.1.place_hashes,
                  last_place_hash := some p },
       s.2 + s.1.xp_place, true) := by
  unfold placeStep
  simp [h]

theorem finishStep_fields (r : Traveler × Int × Bool) :
    (finishStep r).1.unique_essids = r.1.unique_essids ∧
    (finishStep r).1.unique_bssids = r.1.unique_bssids ∧
    (finishStep r).1.unique_ouis = r.1.unique_ouis ∧
    (finishStep r).1.unique_bands = r.1.unique_bands ∧
    (finishStep r).1.place_hashes = r.1.place_hashes ∧
    (finishStep r).1.last_place_hash = r.1.last_place_hash ∧
    (finishStep r).1.travel_grid = r.1.travel_grid ∧
    (finishStep r).1.strict_nogps_places = r.1.strict_nogps_places := by
  unfold finishStep
  split_ifs with h
  · have hf := add_xp_frame r.2.1 r.1
    exact ⟨hf.1, hf.2.1, hf.2.2.1, hf.2.2.2.1, hf.2.2.2.2.1, hf.2.2.2.2.2.1,
      hf.2.2.2.2.2.2.2.1, hf.2.2.2.2.2.2.2.2⟩
  · exact ⟨rfl, rfl, rfl, rfl, rfl, rfl, rfl, rfl⟩

theorem finishStep_snd (r : Traveler × Int × Bool) :
    (finishStep r).2 = some (r.2.1, decide (r.2.1 > 0), r.2.2) := by
  unfold finishStep
  split_ifs with h <;> simp [h]

theorem on_handshake_err (t : Traveler) (ap : AP) (gps : Option (ℚ × ℚ))
    (hp : compute_place_hash (score4 t ap).1 gps ap = Except.error ()) :
    on_handshake t ap gps = ((score4 t ap).1, none) := by
  unfold on_handshake
  rw [hp]

theorem on_handshake_ok (t : Traveler) (ap : AP) (gps : Option (ℚ × ℚ))
    (p : String)
    (hp : compute_place_hash (score4 t ap).1 gps ap = Except.ok p) :
    on_handshake t ap gps = finishStep (placeStep (score4 t ap) p) := by
  unfold on_handshake
  rw [hp]

theorem on_handshake_post (t : Traveler) (ap : AP) (gps : Option (ℚ × ℚ)) (p : String)
    (hp : compute_place_hash (score4 t ap).1 gps ap = Except.ok p) :
    sat (on_handshake t ap gps).1 ap ∧
    p ∈ (on_handshake t ap gps).1.place_hashes ∧
    (on_handshake t ap gps).1.travel_grid = t.travel_grid ∧
    (on_handshake t ap gps).1.strict_nogps_places = t.strict_nogps_places := by
  rw [on_handshake_ok t ap gps p hp]
  by_cases hmem : p ∈ (score4 t ap).1.place_hashes
  · rw [placeStep_mem _ _ hmem]
    have hff := finishStep_fields ((score4 t ap).1, (score4 t ap).2, false)
    refine ⟨sat_congr _ _ _ hff.1 hff.2.1 hff.2.2.1 hff.2.2.2.1 (score4_sat t ap),
      ?_, ?_, ?_⟩
    · rw [hff.2.2.2.2.1]; exact hmem
    · rw [hff.2.2.2.2.2.2.1]; exact (score4_frame t ap).2.2.2.2.2.1
    · rw [hff.2.2.2.2.2.2.2]; exact (score4_frame t ap).2.2.2.2.2.2.1
  · rw [placeStep_new _ _ hmem]
    have hff := finishStep_fields
      ({ (score4 t ap).1 with
          place_hashes := insert p (score4 t ap).1.place_hashes,
          last_place_hash := some p },
       (score4 t ap).2 + (score4 t ap).1.xp_place, true)
    refine ⟨sat_congr _ _ _ hff.1 hff.2.1 hff.2.2.1 hff.2.2.2.1 (score4_sat t ap),
      ?_, ?_, ?_⟩
    · rw [hff.2.2.2.2.1]; exact Finset.mem_insert_self _ _
    · rw [hff.2.2.2.2.2.2.1]; exact (score4_frame t ap).2.2.2.2.2.1
    · rw [hff.2.2.2.2.2.2.2]; exact (score4_frame t ap).2.2.2.2.2.2.1

theorem on_handshake_oldplace (t : Traveler) (ap : AP) (gps : Option (ℚ × ℚ))
    (p : String)
    (hp : compute_place_hash (score4 t ap).1 gps ap = Except.ok p)
    (hmem : p ∈ t.place_hashes) :
    (on_handshake t ap gps).1.place_hashes = t.place_hashes ∧
    (on_handshake t ap gps).1.last_place_hash = t.last_place_hash ∧
    ∃ g sv, (on_handshake t ap gps).2 = some (g, sv, false) := by
  rw [on_handshake_ok t ap gps p hp]
  have hmem4 : p ∈ (score4 t ap).1.place_hashes := by
    rw [(score4_frame t ap).2.2.2.1]; exact hmem
  rw [placeStep_mem _ _ hmem4]
  have hff := finishStep_fields ((score4 t ap).1, (score4 t ap).2, false)
  refine ⟨?_, ?_, ?_⟩
  · rw [hff.2.2.2.2.1]; exact (score4_frame t ap).2.2.2.1
  · rw [hff.2.2.2.2.2.1]; exact (score4_frame t ap).2.2.2.2.1
  · rw [finishStep_snd]; exact ⟨_, _, rfl⟩

theorem band_mem (c : Option Int) :
    channel_to_band c = "2.4" ∨ channel_to_band c = "5" ∨
    channel_to_band c = "6" ∨ channel_to_band c = "unk" := by
  cases c with
  | none => exact Or.inr (Or.inr (Or.inr rfl))
  | some ch =>
    unfold channel_to_band
    dsimp only
    split_ifs <;> tauto

theorem compute_strict (t : Traveler) (ap : AP)
    (hs : t.strict_nogps_places = true) :
    compute_place_hash t none ap =
      Except.ok ("nogps-" ++ channel_to_band ap.channel.parsed) := by
  unfold compute_place_hash
  simp [hs]

/-- Claim C2: recording the same encounter twice (with the position
source unchanged between the calls, and the first call not failing) is
idempotent: the second call returns the state unchanged, gained XP 0,
no save and no new place. -/
theorem claim_C2_idempotent (t : Traveler) (ap : AP) (gps : Option (ℚ × ℚ))
    (h : t.travel_grid ≠ 0 ∨ gps = none) :
    on_handshake (on_handshake t ap gps).1 ap gps =
      ((on_handshake t ap gps).1, some (0, false, false)) := by
  have hg4 : (score4 t ap).1.travel_grid = t.travel_grid :=
    (score4_frame t ap).2.2.2.2.2.1
  have hs4 : (score4 t ap).1.strict_nogps_places = t.strict_nogps_places :=
    (score4_frame t ap).2.2.2.2.2.2.1
  obtain ⟨p, hp⟩ := compute_ok (score4 t ap).1 gps ap (by
    rcases h with h | h
    · exact Or.inl (by rw [hg4]; exact h)
    · exact Or.inr h)
  obtain ⟨hsat1, hmem1, hgrid1, hstrict1⟩ := on_handshake_post t ap gps p hp
  set t1 := (on_handshake t ap gps).1 with ht1
  have hnoop := score4_noop t1 ap hsat1
  have hcomp1 : compute_place_hash (score4 t1 ap).1 gps ap = Except.ok p := by
    rw [hnoop]
    have := compute_congr (score4 t ap).1 t1 gps ap
      (by rw [hgrid1, hg4]) (by rw [hstrict1, hs4])
    rw [this, hp]
  rw [on_handshake_ok t1 ap gps p hcomp1, hnoop, placeStep_mem (t1, 0) p hmem1]
  unfold finishStep
  simp

/-- Witness for C2: an encounter with no position recorded twice from
the initial state. -/
theorem claim_C2_witness :
    on_handshake (on_handshake initTraveler apCafe none).1 apCafe none =
      ((on_handshake initTraveler apCafe none).1, some (0, false, false)) :=
  claim_C2_idempotent initTraveler apCafe none (Or.inr rfl)

/-- Claim C7: with no position and strict no-GPS mode on, the place key
is nogps- followed by the band, hence lies in a fixed 4-element key set;
two encounters with the same band get the identical key, and after the
first is recorded the second triggers no place insertion, no last-place
update and no new-place award. -/
theorem claim_C7_nogps_strict (t : Traveler) (ap1 ap2 : AP)
    (hs : t.strict_nogps_places = true)
    (hb : channel_to_band ap1.channel.parsed = channel_to_band ap2.channel.parsed) :
    compute_place_hash t none ap1 =
      Except.ok ("nogps-" ++ channel_to_band ap1.channel.parsed) ∧
    compute_place_hash t none ap1 = compute_place_hash t none ap2 ∧
    ("nogps-" ++ channel_to_band ap1.channel.parsed) ∈
      (["nogps-2.4", "nogps-5", "nogps-6", "nogps-unk"] : List String) ∧
    (on_handshake (on_handshake t ap1 none).1 ap2 none).1.place_hashes =
      (on_handshake t ap1 none).1.place_hashes ∧
    (on_handshake (on_handshake t ap1 none).1 ap2 none).1.last_place_hash =
      (on_handshake t ap1 none).1.last_place_hash ∧
    ∃ g sv, (on_handshake (on_handshake t ap1 none).1 ap2 none).2 =
      some (g, sv, false) := by
  have hs41 : (score4 t ap1).1.strict_nogps_places = true := by
    rw [(score4_frame t ap1).2.2.2.2.2.2.1]; exact hs
  have hp1 : compute_place_hash (score4 t ap1).1 none ap1 =
      Except.ok ("nogps-" ++ channel_to_band ap1.channel.parsed) :=
    compute_strict _ _ hs41
  obtain ⟨hsat1, hmem1, hgrid1, hstrict1⟩ := on_handshake_post t ap1 none _ hp1
  set t1 := (on_handshake t ap1 none).1 with ht1
  have hs42 : (score4 t1 ap2).1.strict_nogps_places = true := by
    rw [(score4_frame t1 ap2).2.2.2.2.2.2.1, hstrict1]; exact hs
  have hp2 : compute_place_hash (score4 t1 ap2).1 none ap2 =
      Except.ok ("nogps-" ++ channel_to_band ap1.channel.parsed) := by
    rw [compute_strict _ _ hs42, hb]
  obtain ⟨h4, h5, h6⟩ := on_handshake_oldplace t1 ap2 none _ hp2 hmem1
  refine ⟨compute_strict _ _ hs, ?_, ?_, h4, h5, h6⟩
  · rw [compute_strict _ _ hs, compute_strict _ _ hs, hb]
  · rcases band_mem ap1.channel.parsed with h | h | h | h <;> rw [h] <;> simp

/-- Witness for C7: channels 36 and 40 (both band 5), no position,
default strict mode, starting from the initial state. -/
theorem claim_C7_witness :
    compute_place_hash initTraveler none apA =
      Except.ok ("nogps-" ++ channel_to_band apA.channel.parsed) ∧
    (∃ g sv, (on_handshake (on_handshake initTraveler apA none).1 apB none).2 =
      some (g, sv, false)) :=
  ⟨(claim_C7_nogps_strict initTraveler apA apB rfl rfl).1,
   (claim_C7_nogps_strict initTraveler apA apB rfl rfl).2.2.2.2.2⟩

/-- Claim C10: on_handshake preserves the invariant that a non-None
last_place_hash is a member of the places set, and either leaves both
the places set and last_place_hash unchanged or inserts exactly one new
key and points last_place_hash at it. -/
theorem claim_C10_last_place (t : Traveler) (ap : AP) (gps : Option (ℚ × ℚ))
    (hinv : ∀ s, t.last_place_hash = some s → s ∈ t.place_hashes) :
    (∀ s, (on_handshake t ap gps).1.last_place_hash = some s →
      s ∈ (on_handshake t ap gps).1.place_hashes) ∧
    (((on_handshake t ap gps).1.place_hashes = t.place_hashes ∧
      (on_handshake t ap gps).1.last_place_hash = t.last_place_hash) ∨
     (∃ p, p ∉ t.place_hashes ∧
       (on_handshake t ap gps).1.place_hashes = insert p t.place_hashes ∧
       (on_handshake t ap gps).1.last_place_hash = some p)) := by
  cases hres : compute_place_hash (score4 t ap).1 gps ap with
  | error e =>
    cases e
    rw [on_handshake_err t ap gps hres]
    have hfr := score4_frame t ap
    refine ⟨?_, Or.inl ⟨hfr.2.2.2.1, hfr.2.2.2.2.1⟩⟩
    intro s hsx
    rw [hfr.2.2.2.1]
    rw [hfr.2.2.2.2.1] at hsx
    exact hinv s hsx
  | ok p =>
    by_cases hmem : p ∈ t.place_hashes
    · obtain ⟨h1, h2, _⟩ := on_handshake_oldplace t ap gps p hres hmem
      refine ⟨?_, Or.inl ⟨h1, h2⟩⟩
      intro s hsx
      rw [h1]
      rw [h2] at hsx
      exact hinv s hsx
    · have hmem4 : p ∉ (score4 t ap).1.place_hashes := by
        rw [(score4_frame t ap).2.2.2.1]; exact hmem
      rw [on_handshake_ok t ap gps p hres, placeStep_new _ _ hmem4]
      have hff := finishStep_fields
        ({ (score4 t ap).1 with
            place_hashes := insert p (score4 t ap).1.place_hashes,
            last_place_hash := some p },
         (score4 t ap).2 + (score4 t ap).1.xp_place, true)
      have hpl : (finishStep
          ({ (score4 t ap).1 with
              place_hashes := insert p (score4 t ap).1.place_hashes,
              last_place_hash := some p },
           (score4 t ap).2 + (score4 t ap).1.xp_place, true)).1.place_hashes =
          insert p t.place_hashes := by
        rw [hff.2.2.2.2.1, (score4_frame t ap).2.2.2.1]
      have hla : (finishStep
          ({ (score4 t ap).1 with
              place_hashes := insert p (score4 t ap).1.place_hashes,
              last_place_hash := some p },
           (score4 t ap).2 + (score4 t ap).1.xp_place, true)).1.last_place_hash =
          some p := hff.2.2.2.2.2.1
      refine ⟨?_, Or.inr ⟨p, hmem, hpl, hla⟩⟩
      intro s hsx
      rw [hla] at hsx
      cases hsx
      rw [hpl]
      exact Finset.mem_insert_self _ _

/-- Witness for C10: from the initial state (last place None), the
no-position unk-band encounter leaves its key in the places set. -/
theorem claim_C10_witness :
    "nogps-unk" ∈ (on_handshake initTraveler apCafe none).1.place_hashes :=
  (claim_C10_last_place initTraveler apCafe none (fun _ hs => nomatch hs)).1
    "nogps-unk" (by rfl)

/-- Claim C1 fails on the code: with the grid configured to 0 and a GPS
fix present, place-key computation raises ZeroDivisionError after the
four attribute checks already ran, the outer handler swallows it, and
the essid set has been mutated even though the call failed. -/
theorem claim_C1_counterexample :
    (on_handshake gridZero apCafe (some (1, 1))).2 = none ∧
    (on_handshake gridZero apCafe (some (1, 1))).1.unique_essids ≠
      gridZero.unique_essids := by
  constructor
  · rfl
  · rw [show (on_handshake gridZero apCafe (some (1, 1))).1.unique_essids =
        insert "cafe" (∅ : Finset String) from rfl]
    rw [show gridZero.unique_essids = (∅ : Finset String) from rfl]
    simp

/-- Claim C1 amended: when an unexpected failure occurs mid-evaluation
(place-key computation), the call fails without awarding XP, saving,
or touching the places set and last place, but the four attribute-set
insertions made before the failure point persist (in particular the
essid has been inserted). -/
theorem claim_C1_amended (t : Traveler) (ap : AP) (gps : Option (ℚ × ℚ))
    (herr : (on_handshake t ap gps).2 = none) :
    (on_handshake t ap gps).1 = (score4 t ap).1 ∧
    (on_handshake t ap gps).1.travel_xp = t.travel_xp ∧
    (on_handshake t ap gps).1.travel_level = t.travel_level ∧
    (on_handshake t ap gps).1.place_hashes = t.place_hashes ∧
    (on_handshake t ap gps).1.last_place_hash = t.last_place_hash ∧
    (on_handshake t ap gps).1.unique_essids = insert ap.essid t.unique_essids := by
  cases hres : compute_place_hash (score4 t ap).1 gps ap with
  | ok p =>
    rw [on_handshake_ok t ap gps p hres, finishStep_snd] at herr
    exact absurd herr (by simp)
  | error e =>
    cases e
    rw [on_handshake_err t ap gps hres]
    have hfr := score4_frame t ap
    refine ⟨rfl, hfr.1, hfr.2.1, hfr.2.2.2.1, hfr.2.2.2.2.1, ?_⟩
    rw [score4_fst]

/-- Witness for C1 amended at the concrete failing input of the
counterexample. -/
theorem claim_C1_witness :
    (on_handshake gridZero apCafe (some (1, 1))).1.place_hashes =
      gridZero.place_hashes ∧
    (on_handshake gridZero apCafe (some (1, 1))).1.travel_xp =
      gridZero.travel_xp :=
  ⟨(claim_C1_amended gridZero apCafe (some (1, 1)) rfl).2.2.2.1,
   (claim_C1_amended gridZero apCafe (some (1, 1)) rfl).2.1⟩
theorem countP_le_of_le (l : List Int) (x y : Int) (h : x ≤ y) :
    l.countP (fun k => decide (x ≥ k)) ≤ l.countP (fun k => decide (y ≥ k)) := by
  induction l with
  | nil => simp
  | cons a as ih =>
    rw [List.countP_cons, List.countP_cons]
    have hif : (if decide (x ≥ a) = true then 1 else 0) ≤
        (if decide (y ≥ a) = true then 1 else 0) := by
      split_ifs with h1 h2 <;> simp_all <;> omega
    omega

theorem recalc_level_mono (titles : List (Int × String)) (x y : Int) (h : x ≤ y) :
    recalc_level titles x ≤ recalc_level titles y := by
  unfold recalc_level
  have := countP_le_of_le (sortedKeys titles) x y h
  omega

theorem add_xp_eq (a : Int) (t : Traveler) :
    add_xp a t = if a ≤ 0 then t else
      { t with travel_xp := t.travel_xp + a,
               travel_level := recalc_level t.titles (t.travel_xp + a) } := by
  unfold add_xp
  split_ifs <;> rfl

theorem add_xp_mono (a : Int) (t : Traveler)
    (hs : t.travel_level = recalc_level t.titles t.travel_xp) :
    t.travel_xp ≤ (add_xp a t).travel_xp ∧
    t.travel_level ≤ (add_xp a t).travel_level ∧
    (add_xp a t).travel_level =
      recalc_level (add_xp a t).titles (add_xp a t).travel_xp ∧
    (add_xp a t).titles = t.titles := by
  rw [add_xp_eq]
  split_ifs with ha
  · exact ⟨le_refl _, le_refl _, hs, rfl⟩
  · refine ⟨show t.travel_xp ≤ t.travel_xp + a by omega, ?_, rfl, rfl⟩
    rw [hs]
    show recalc_level t.titles t.travel_xp ≤ recalc_level t.titles (t.travel_xp + a)
    exact recalc_level_mono t.titles _ _ (by omega)

theorem applyAll_cons (a : Int) (as : List Int) (t : Traveler) :
    applyAll (a :: as) t = applyAll as (add_xp a t) := rfl

theorem applyAll_mono (l : List Int) (t : Traveler)
    (hs : t.travel_level = recalc_level t.titles t.travel_xp) :
    t.travel_xp ≤ (applyAll l t).travel_xp ∧
    t.travel_level ≤ (applyAll l t).travel_level ∧
    (applyAll l t).travel_level =
      recalc_level (applyAll l t).titles (applyAll l t).travel_xp ∧
    (applyAll l t).titles = t.titles := by
  induction l generalizing t with
  | nil => exact ⟨le_refl _, le_refl _, hs, rfl⟩
  | cons a as ih =>
    have h1 := add_xp_mono a t hs
    have h2 := ih (add_xp a t) h1.2.2.1
    rw [applyAll_cons]
    exact ⟨le_trans h1.1 h2.1, le_trans h1.2.1 h2.2.1, h2.2.2.1,
           h2.2.2.2.trans h1.2.2.2⟩

/-- Claim C6: starting from a state whose level is in sync with its
experience (the documented invariant of the progression state), any
sequence of _add_xp calls leaves both the cumulative experience and the
level no smaller, and a call with a non-positive amount is a no-op. -/
theorem claim_C6_monotonic (l : List Int) (t : Traveler)
    (hs : t.travel_level = recalc_level t.titles t.travel_xp) :
    t.travel_xp ≤ (applyAll l t).travel_xp ∧
    t.travel_level ≤ (applyAll l t).travel_level ∧
    (∀ a, a ≤ 0 → add_xp a t = t) := by
  have h := applyAll_mono l t hs
  exact ⟨h.1, h.2.1, fun a ha => by rw [add_xp_eq, if_pos ha]⟩

/-- Witness for C6: the sequence 5, -3, 300 from the initial state. -/
theorem claim_C6_witness :
    initTraveler.travel_xp ≤ (applyAll [5, -3, 300] initTraveler).travel_xp ∧
    initTraveler.travel_level ≤
      (applyAll [5, -3, 300] initTraveler).travel_level :=
  ⟨(claim_C6_monotonic [5, -3, 300] initTraveler rfl).1,
   (claim_C6_monotonic [5, -3, 300] initTraveler rfl).2.1⟩

theorem pyRound_eq (q : ℚ) (n : Int) (h1 : (n : ℚ) ≤ q) (h2 : q < n + 1/2) :
    pyRound q = n := by
  have hf : ⌊q⌋ = n := by
    rw [Int.floor_eq_iff]
    constructor
    · exact h1
    · linarith
  simp only [pyRound]
  rw [hf]
  rw [if_pos (by linarith)]

/-- Claim C8: with a position available and a nonzero grid g, the place
key is the pair of coordinates quantized by round(v / g) * g and printed
with four decimals, joined by a colon; two positions whose coordinates
round to the same grid cell yield the identical key. -/
theorem claim_C8_quantize (g lat1 lon1 lat2 lon2 : ℚ) (hg : g ≠ 0)
    (hla : pyRound (lat1 / g) = pyRound (lat2 / g))
    (hlo : pyRound (lon1 / g) = pyRound (lon2 / g)) :
    quantize_ll g lat1 lon1 =
      Except.ok (fmt4 ((pyRound (lat1 / g) : ℚ) * g) ++ ":" ++
                 fmt4 ((pyRound (lon1 / g) : ℚ) * g)) ∧
    quantize_ll g lat1 lon1 = quantize_ll g lat2 lon2 := by
  constructor
  · unfold quantize_ll
    rw [if_neg hg]
  · unfold quantize_ll
    rw [if_neg hg, if_neg hg, hla, hlo]

/-- Witness for C8: grid 0.01 and the two latitudes 37.774929 and
37.7749 (same 0.01 bucket) with longitude -122.419416. -/
theorem claim_C8_witness :
    quantize_ll (1/100) (37774929/1000000) (-122419416/1000000) =
      quantize_ll (1/100) (377749/10000) (-122419416/1000000) :=
  (claim_C8_quantize (1/100) (37774929/1000000) (-122419416/1000000)
    (377749/10000) (-122419416/1000000) (by norm_num)
    (by
      rw [show ((37774929:ℚ)/1000000)/(1/100) = 37774929/10000 by norm_num,
          show ((377749:ℚ)/10000)/(1/100) = 377749/100 by norm_num,
          pyRound_eq (37774929/10000) 3777 (by norm_num) (by norm_num),
          pyRound_eq (377749/100) 3777 (by norm_num) (by norm_num)])
    rfl).2

end Nomadachi
